import Mathlib

/-!
The authorization gate `casbinmiddleware` of `learn_together`.

A shallow embedding of `mymiddleware/casbinmiddleware/casbin.go` and of the
`testRequest` helper of `casbin_test.go`.

The gate calls four things it does not own: the skip predicate, the identity
strategy (`UserGetter`), the decision client (`Enforcer.Enforce`) and the
downstream handler (`next`).  Each is a parameter here: a function giving the
answer of the collaborator on its arguments.  Every call the gate makes is
recorded, in order, in a list of `Call`s, so that "is never invoked" and "is
invoked exactly once" are statements about that list.  A call through a nil
function value or a nil `*Enforcer` is a Go run-time panic and is modelled by
`Exec.panic`.

The `echo.Context` handed to the identity strategy is mutable: the strategy
runs before the gate reads the method and the path of the request, and what it
writes is seen by the gate and by `next`.  The state of the context is
therefore passed explicitly: a strategy returns, next to its two Go results,
the context as it leaves it, and `GetUserName` and `CheckPermission` pass that
state on.  A `Call` records the state of the context at the time of the call.
The skip predicate is a pure predicate of the context: it writes nothing.
-/

namespace CasbinMiddleware

/-! ## Values of the Go and echo libraries the gate touches -/

/-- Go `error` values: either an `*echo.HTTPError` (code and message) or any
other error, represented by the string its `Error()` method returns. -/
inductive GoError where
  | errorString (s : String)
  | HTTPError (Code : Nat) (Message : String)
  deriving DecidableEq, Repr

/-- The method `Error()` of an error value (for `*echo.HTTPError`: the
formatted pair of code and message). -/
def GoError.Error : GoError → String
  | .errorString s => s
  | .HTTPError code msg => "code=" ++ toString code ++ ", message=" ++ msg

/-- The function `http.StatusText` on the codes that occur here. -/
def StatusText (code : Nat) : String :=
  if code = 401 then "Unauthorized"
  else if code = 403 then "Forbidden"
  else if code = 500 then "Internal Server Error"
  else ""

/-- The constructor `echo.NewHTTPError(code, message...)`: the message is the
first optional argument when there is one, the status text otherwise. -/
def NewHTTPError (code : Nat) (message : Option String) : GoError :=
  match message with
  | some m => .HTTPError code m
  | none => .HTTPError code (StatusText code)

/-- The constant `http.StatusOK`. -/
def StatusOK : Nat := 200

/-- The constant `http.StatusUnauthorized`. -/
def StatusUnauthorized : Nat := 401

/-- The constant `http.StatusForbidden`. -/
def StatusForbidden : Nat := 403

/-- The constant `http.StatusInternalServerError`. -/
def StatusInternalServerError : Nat := 500

/-- The value `echo.ErrForbidden`. -/
def ErrForbidden : GoError := NewHTTPError StatusForbidden none

/-- A Go `context.Context`, as far as cancellation is concerned: the
background context, or a context derived from a parent by `WithCancel` or
`WithTimeout`; the flag says whether that derived context has itself been
cancelled (its deadline has passed). -/
inductive GoContext where
  | Background
  | WithCancel (parent : GoContext) (cancelled : Bool)
  | WithTimeout (parent : GoContext) (expired : Bool)
  deriving DecidableEq, Repr

/-- Whether the `Done()` channel of the context is closed: a derived context is
done when it was cancelled itself or when its parent is done; the background
context is never done. -/
def GoContext.Done : GoContext → Bool
  | .Background => false
  | .WithCancel p cancelled => cancelled || p.Done
  | .WithTimeout p expired => expired || p.Done

/-- Whether `child` is `ancestor` itself or was derived from it. -/
def GoContext.derivedFrom (child ancestor : GoContext) : Bool :=
  child == ancestor ||
    match child with
    | .Background => false
    | .WithCancel p _ => p.derivedFrom ancestor
    | .WithTimeout p _ => p.derivedFrom ancestor

/-- The part of `*http.Request` the gate and its default strategy read: the
method, `URL.Path`, the basic credentials of the `Authorization` header
(`none` when the header is absent or malformed) and the request context. -/
structure Request where
  Method : String
  Path : String
  credentials : Option (String × String)
  ctx : GoContext
  deriving DecidableEq, Repr

/-- The method `(*http.Request).BasicAuth`: username, password and `ok`; all
zero when the header is absent or malformed. -/
def Request.BasicAuth (r : Request) : String × String × Bool :=
  match r.credentials with
  | some (username, password) => (username, password, true)
  | none => ("", "", false)

/-- The method `(*http.Request).Context`. -/
def Request.Context (r : Request) : GoContext := r.ctx

/-- The method `(*http.Request).SetBasicAuth`. -/
def Request.SetBasicAuth (r : Request) (username password : String) : Request :=
  { r with credentials := some (username, password) }

/-- The function `httptest.NewRequest(method, path, nil)`: no credentials, the
background context. -/
def NewRequest (method path : String) : Request :=
  { Method := method, Path := path, credentials := none, ctx := .Background }

/-- An `echo.Context`: the request and the status of the response written so
far (0 on a fresh context). -/
structure Context where
  req : Request
  Status : Nat
  deriving DecidableEq, Repr

/-- The method `c.Request()`. -/
def Context.Request (c : Context) : Request := c.req

/-- The function `e.NewContext(req, res)` on a fresh recorder. -/
def NewContext (req : Request) : Context := { req := req, Status := 0 }

/-- What a handler leaves behind: the error it returns (`none` for nil) and
the status of the response after it ran. -/
structure HandlerResult where
  err : Option GoError
  Status : Nat
  deriving DecidableEq, Repr

/-- An `echo.HandlerFunc` that is a collaborator of the gate (`next`). -/
abbrev HandlerFunc := Context → HandlerResult

/-- The handler `func(c) error { return c.String(code, s) }` of the tests: it
writes the status and returns nil. -/
def StringHandler (code : Nat) : HandlerFunc :=
  fun _ => { err := none, Status := code }

/-- The predicate `middleware.DefaultSkipper`: never skip. -/
def DefaultSkipper : Context → Bool := fun _ => false

/-! ## Calls and executions -/

/-- The calls the gate can make to its collaborators. -/
inductive Call where
  | Skipper (c : Context)
  | UserGetter (c : Context)
  | Enforce (ctx : GoContext) (user path method : String)
  | Next (c : Context)
  deriving DecidableEq, Repr

/-- An execution of gate code: it returns a value, or panics on a nil
dereference; either way with the calls made up to then, in order. -/
inductive Exec (α : Type) where
  | ok (value : α) (calls : List Call)
  | panic (calls : List Call)
  deriving DecidableEq, Repr

/-- The calls made by an execution. -/
def Exec.calls {α : Type} : Exec α → List Call
  | .ok _ cs => cs
  | .panic cs => cs

/-- The value an execution returns, `none` when it panicked. -/
def Exec.value {α : Type} : Exec α → Option α
  | .ok v _ => some v
  | .panic _ => none

/-- Whether a call is a call of the downstream handler. -/
def Call.isNext : Call → Bool
  | .Next _ => true
  | _ => false

/-- Whether a call is a call of the identity strategy. -/
def Call.isUserGetter : Call → Bool
  | .UserGetter _ => true
  | _ => false

/-- Whether a call is a call of `Enforcer.Enforce`. -/
def Call.isEnforce : Call → Bool
  | .Enforce _ _ _ _ => true
  | _ => false

/-! ## casbin.go -/

/-- The decision client `*authcontrol.Enforcer`, of which the gate uses the
method `Enforce(ctx, user, path, method)` only: its answer `(bool, error)`. -/
structure Enforcer where
  Enforce : GoContext → String → String → String → Bool × Option GoError

/-- The struct `Config`; a nil function or pointer is `none`.  A `UserGetter`
gives its two results `(string, error)` and the context as it leaves it. -/
structure Config where
  Skipper : Option (Context → Bool)
  Enforcer : Option Enforcer
  UserGetter : Option (Context → (String × Option GoError) × Context)

/-- The variable `DefaultConfig`: the default skipper, no enforcer, and the
strategy that returns the username of `BasicAuth()` and a nil error; it writes
nothing to the context. -/
def DefaultConfig : Config :=
  { Skipper := some DefaultSkipper
    Enforcer := none
    UserGetter := some (fun c =>
      let (username, _, _) := c.Request.BasicAuth
      ((username, none), c)) }

/-- The method `(*Config).GetUserName`: calls the `UserGetter` field on the
context; its results, and the context after the call. -/
def Config.GetUserName (a : Config) (c : Context) :
    Exec ((String × Option GoError) × Context) :=
  match a.UserGetter with
  | none => .panic []
  | some getter => .ok (getter c) [Call.UserGetter c]

/-- The method `(*Config).CheckPermission`: its results, and the context after
the call.  The method and the path are read after `GetUserName` has run. -/
def Config.CheckPermission (a : Config) (c : Context) :
    Exec ((Bool × Option GoError) × Context) :=
  match a.GetUserName c with
  | .panic cs => .panic cs
  | .ok ((user, err), c1) cs =>
    match err with
    | some _ =>
      -- Fail safe and do not propagate
      .ok ((false, none), c1) cs
    | none =>
      let method := c1.Request.Method
      let path := c1.Request.Path
      match a.Enforcer with
      | none => .panic cs
      | some e =>
        .ok (e.Enforce GoContext.Background user path method, c1)
          (cs ++ [Call.Enforce GoContext.Background user path method])

/-- The function `MiddlewareWithConfig`, applied to `next` and to a context. -/
def MiddlewareWithConfig (config : Config) (next : HandlerFunc) (c : Context) :
    Exec HandlerResult :=
  -- Defaults
  let config : Config :=
    if config.Skipper.isNone then { config with Skipper := DefaultConfig.Skipper } else config
  match config.Skipper with
  | none => .panic []
  | some skipper =>
    if skipper c then
      .ok (next c) [Call.Skipper c, Call.Next c]
    else
      match config.CheckPermission c with
      | .panic cs => .panic (Call.Skipper c :: cs)
      | .ok ((pass, err), c1) cs =>
        if err.isNone && pass then
          .ok (next c1) (Call.Skipper c :: cs ++ [Call.Next c1])
        else
          match err with
          | some e =>
            .ok { err := some (NewHTTPError StatusInternalServerError (some e.Error)),
                  Status := c1.Status } (Call.Skipper c :: cs)
          | none =>
            .ok { err := some ErrForbidden, Status := c1.Status } (Call.Skipper c :: cs)

/-- The function `Middleware`: the default config with the given enforcer. -/
def Middleware (ce : Option Enforcer) (next : HandlerFunc) (c : Context) : Exec HandlerResult :=
  let c0 : Config := { DefaultConfig with Enforcer := ce }
  MiddlewareWithConfig c0 next c

/-! ## casbin_test.go -/

/-- The code `testRequest` compares with the expected one: the code of the
returned `*echo.HTTPError`, the response status when nil is returned, and
nothing for any other error (the test fails on it). -/
def observedCode (r : HandlerResult) : Option Nat :=
  match r.err with
  | some (.HTTPError code _) => some code
  | some (.errorString _) => none
  | none => some r.Status

/-- The helper `testRequest`: whether the check passes for the handler `h`. -/
def testRequest (h : Context → Exec HandlerResult) (user path method : String) (code : Nat) :
    Bool :=
  let req := (NewRequest method path).SetBasicAuth user "secret"
  let c := NewContext req
  match h c with
  | .ok r _ => observedCode r == some code
  | .panic _ => false

/-! ## Example collaborators -/

/-- A decision client that allows exactly the listed triples of subject, path
and method, and never fails. -/
def policyEnforcer (allowed : List (String × String × String)) : Enforcer :=
  { Enforce := fun _ user path method => (allowed.contains (user, path, method), none) }

/-- A decision client whose evaluation always fails with the given message,
reporting the given boolean next to the error. -/
def failingEnforcer (pass : Bool) (msg : String) : Enforcer :=
  { Enforce := fun _ _ _ _ => (pass, some (GoError.errorString msg)) }

/-- A decision client that honours the context it is handed: it fails with
`context canceled` when that context is done and allows otherwise. -/
def contextAwareEnforcer : Enforcer :=
  { Enforce := fun ctx _ _ _ =>
      if ctx.Done then (false, some (GoError.errorString "context canceled")) else (true, none) }

/-- A small policy: two grants of the scenarios and a grant to the empty
subject. -/
def examplePolicy : List (String × String × String) :=
  [("alice", "/dataset1/resource1", "GET"),
   ("bob", "/dataset2/resource1", "POST"),
   ("", "/public", "GET")]

/-- The context `testRequest` builds for a user, a path and a method. -/
def testContext (user path method : String) : Context :=
  NewContext ((NewRequest method path).SetBasicAuth user "secret")

/-- A fresh context for a request without credentials. -/
def anonymousContext (path method : String) : Context :=
  NewContext (NewRequest method path)

/-- The strategy of `TestCustomUserGetter`. -/
def customUserGetter : Context → (String × Option GoError) × Context :=
  fun c => (("not_cathy_at_all", none), c)

/-- The strategy of `TestUserGetterError`. -/
def failingUserGetter : Context → (String × Option GoError) × Context :=
  fun c => (("", some (GoError.errorString "no idea who you are")), c)

/-- A strategy that returns the username of `BasicAuth()`, as the default one
does, after setting `c.Request().URL.Path` to `/dataset2/resource1`. -/
def rewritingUserGetter : Context → (String × Option GoError) × Context :=
  fun c =>
    let c1 : Context := { c with req := { c.req with Path := "/dataset2/resource1" } }
    let (username, _, _) := c1.Request.BasicAuth
    ((username, none), c1)

/-- A skip predicate that exempts one path. -/
def healthSkipper : Context → Bool :=
  fun c => c.Request.Path == "/health"

/-- The config of `Middleware` over the example policy. -/
def exampleConfig : Config :=
  { DefaultConfig with Enforcer := some (policyEnforcer examplePolicy) }

/-- The config of `TestCustomUserGetter` over the example policy. -/
def customConfig : Config :=
  { Skipper := some DefaultSkipper
    Enforcer := some (policyEnforcer examplePolicy)
    UserGetter := some customUserGetter }

/-- The config of `TestUserGetterError` over a decision client that would
allow everything. -/
def failingIdentityConfig : Config :=
  { Skipper := some DefaultSkipper
    Enforcer := some contextAwareEnforcer
    UserGetter := some failingUserGetter }

/-- A config with a skip predicate and nothing else. -/
def skippingConfig : Config :=
  { Skipper := some healthSkipper
    Enforcer := none
    UserGetter := none }

/-- The config of `Middleware` over the example policy, with the strategy that
rewrites the path. -/
def rewritingConfig : Config :=
  { exampleConfig with UserGetter := some rewritingUserGetter }

/-- A config that leaves the skipper and the identity strategy out. -/
def bareConfig : Config :=
  { Skipper := none
    Enforcer := some (policyEnforcer examplePolicy)
    UserGetter := none }

/-- The context `c` with other basic credentials on its request (`none`: no
usable `Authorization` header). -/
def Context.withCredentials (c : Context) (credentials : Option (String × String)) : Context :=
  { c with req := { c.req with credentials := credentials } }

/-- A fresh context for a request of alice whose own context has been
cancelled. -/
def cancelledContext : Context :=
  NewContext
    { Method := "GET"
      Path := "/dataset1/resource1"
      credentials := some ("alice", "secret")
      ctx := GoContext.WithCancel GoContext.Background true }

/-! ## Helper lemmas -/

/-- The defaults of `MiddlewareWithConfig` leave a supplied skipper alone. -/
theorem handler_of_skipper (config : Config) (next : HandlerFunc) (c : Context)
    (sk : Context → Bool) (hsk : config.Skipper = some sk) :
    MiddlewareWithConfig config next c =
      if sk c then .ok (next c) [Call.Skipper c, Call.Next c]
      else
        match config.CheckPermission c with
        | .panic cs => .panic (Call.Skipper c :: cs)
        | .ok ((pass, err), c1) cs =>
          if err.isNone && pass then
            .ok (next c1) (Call.Skipper c :: cs ++ [Call.Next c1])
          else
            match err with
            | some e =>
              .ok { err := some (NewHTTPError StatusInternalServerError (some e.Error)),
                    Status := c1.Status } (Call.Skipper c :: cs)
            | none =>
              .ok { err := some ErrForbidden, Status := c1.Status } (Call.Skipper c :: cs) := by
  simp [MiddlewareWithConfig, hsk]

/-- The defaults of `MiddlewareWithConfig` replace a nil skipper by the default
one, which never skips, and change nothing else of the config. -/
theorem handler_of_nil_skipper (config : Config) (next : HandlerFunc) (c : Context)
    (hsk : config.Skipper = none) :
    MiddlewareWithConfig config next c =
      MiddlewareWithConfig { config with Skipper := some DefaultSkipper } next c := by
  simp [MiddlewareWithConfig, hsk, DefaultConfig]

/-- A request that is not skipped goes through `CheckPermission`. -/
theorem handler_not_skipped (config : Config) (next : HandlerFunc) (c : Context)
    (hskip : ∀ sk, config.Skipper = some sk → sk c = false) :
    MiddlewareWithConfig config next c =
      match config.CheckPermission c with
      | .panic cs => .panic (Call.Skipper c :: cs)
      | .ok ((pass, err), c1) cs =>
        if err.isNone && pass then
          .ok (next c1) (Call.Skipper c :: cs ++ [Call.Next c1])
        else
          match err with
          | some e =>
            .ok { err := some (NewHTTPError StatusInternalServerError (some e.Error)),
                  Status := c1.Status } (Call.Skipper c :: cs)
          | none =>
            .ok { err := some ErrForbidden, Status := c1.Status } (Call.Skipper c :: cs) := by
  cases hsk : config.Skipper with
  | none =>
    simp [MiddlewareWithConfig, hsk, DefaultConfig, DefaultSkipper, Config.CheckPermission,
      Config.GetUserName]
  | some sk =>
    have h := hskip sk hsk
    simp [MiddlewareWithConfig, hsk, h]

/-! ## The gate: denial, failures, allowance and skipping -/

/-- C1: when the request is not skipped, the UserGetter succeeds with a subject
and Enforce answers (false, nil), the handler returns echo.ErrForbidden, an
HTTP error of code 403, writes nothing to the response and makes no call of
next: its calls are the skipper, the UserGetter and Enforce, and nothing else.
This holds whatever the UserGetter writes to the context (c1 is the context as
the UserGetter leaves it; c1 = c for a strategy that writes nothing). -/
theorem denied_is_forbidden (config : Config) (next : HandlerFunc) (c c1 : Context)
    (getter : Context → (String × Option GoError) × Context) (e : Enforcer) (s : String)
    (hskip : ∀ sk, config.Skipper = some sk → sk c = false)
    (hgetter : config.UserGetter = some getter) (hs : getter c = ((s, none), c1))
    (he : config.Enforcer = some e)
    (hdeny : e.Enforce GoContext.Background s c1.Request.Path c1.Request.Method
      = (false, none)) :
    MiddlewareWithConfig config next c =
        Exec.ok { err := some ErrForbidden, Status := c1.Status }
          [Call.Skipper c, Call.UserGetter c,
            Call.Enforce GoContext.Background s c1.Request.Path c1.Request.Method]
      ∧ ErrForbidden = GoError.HTTPError 403 "Forbidden"
      ∧ (MiddlewareWithConfig config next c).calls.countP Call.isNext = 0 := by
  have hrun : MiddlewareWithConfig config next c =
      Exec.ok { err := some ErrForbidden, Status := c1.Status }
        [Call.Skipper c, Call.UserGetter c,
          Call.Enforce GoContext.Background s c1.Request.Path c1.Request.Method] := by
    rw [handler_not_skipped config next c hskip]
    simp [Config.CheckPermission, Config.GetUserName, hgetter, hs, he, hdeny]
  refine ⟨hrun, by decide, ?_⟩
  rw [hrun]
  simp [Exec.calls, Call.isNext]

/-- C2: when the request is not skipped and the UserGetter returns an error,
the handler returns echo.ErrForbidden (code 403, the very outcome of an
explicit denial), not a 500, and calls neither Enforce nor next, whatever the
Enforcer field holds and would answer, and whatever the UserGetter writes to
the context. -/
theorem identity_failure_is_forbidden (config : Config) (next : HandlerFunc) (c c1 : Context)
    (getter : Context → (String × Option GoError) × Context) (s : String) (cause : GoError)
    (hskip : ∀ sk, config.Skipper = some sk → sk c = false)
    (hgetter : config.UserGetter = some getter) (hs : getter c = ((s, some cause), c1)) :
    MiddlewareWithConfig config next c =
        Exec.ok { err := some ErrForbidden, Status := c1.Status }
          [Call.Skipper c, Call.UserGetter c]
      ∧ ErrForbidden = GoError.HTTPError 403 "Forbidden"
      ∧ (MiddlewareWithConfig config next c).value.bind observedCode ≠ some 500
      ∧ (MiddlewareWithConfig config next c).calls.countP Call.isNext = 0
      ∧ (MiddlewareWithConfig config next c).calls.countP Call.isEnforce = 0 := by
  have hrun : MiddlewareWithConfig config next c =
      Exec.ok { err := some ErrForbidden, Status := c1.Status }
        [Call.Skipper c, Call.UserGetter c] := by
    rw [handler_not_skipped config next c hskip]
    simp [Config.CheckPermission, Config.GetUserName, hgetter, hs]
  refine ⟨hrun, by decide, ?_, ?_, ?_⟩ <;> rw [hrun] <;>
    simp [Exec.calls, Exec.value, Call.isNext, Call.isEnforce, observedCode, ErrForbidden,
      NewHTTPError, StatusForbidden]

/-- C3: when the request is not skipped, the UserGetter succeeds and Enforce
returns a non-nil error (next to either boolean), the handler returns an HTTP
error of code 500 whose message is the Error() string of that error, and makes
no call of next, whatever the UserGetter writes to the context. -/
theorem enforce_failure_is_internal_error (config : Config) (next : HandlerFunc)
    (c c1 : Context)
    (getter : Context → (String × Option GoError) × Context) (e : Enforcer) (s : String)
    (pass : Bool) (cause : GoError)
    (hskip : ∀ sk, config.Skipper = some sk → sk c = false)
    (hgetter : config.UserGetter = some getter) (hs : getter c = ((s, none), c1))
    (he : config.Enforcer = some e)
    (hfail : e.Enforce GoContext.Background s c1.Request.Path c1.Request.Method
      = (pass, some cause)) :
    MiddlewareWithConfig config next c =
        Exec.ok { err := some (GoError.HTTPError 500 cause.Error), Status := c1.Status }
          [Call.Skipper c, Call.UserGetter c,
            Call.Enforce GoContext.Background s c1.Request.Path c1.Request.Method]
      ∧ (MiddlewareWithConfig config next c).calls.countP Call.isNext = 0 := by
  have hrun : MiddlewareWithConfig config next c =
      Exec.ok { err := some (GoError.HTTPError 500 cause.Error), Status := c1.Status }
        [Call.Skipper c, Call.UserGetter c,
          Call.Enforce GoContext.Background s c1.Request.Path c1.Request.Method] := by
    rw [handler_not_skipped config next c hskip]
    simp [Config.CheckPermission, Config.GetUserName, hgetter, hs, he, hfail, NewHTTPError,
      StatusInternalServerError]
  refine ⟨hrun, ?_⟩
  rw [hrun]
  simp [Exec.calls, Call.isNext]

/-- C4: when the request is not skipped, the UserGetter succeeds and Enforce
answers (true, nil), the handler calls next once, on the context it was given
(in the state c1 the UserGetter left it in; c1 = c for a strategy that writes
nothing), after the skipper, the UserGetter and Enforce, and returns the result
of next (nil or its error, and the response it wrote) as it is. -/
theorem allowed_calls_next_once (config : Config) (next : HandlerFunc) (c c1 : Context)
    (getter : Context → (String × Option GoError) × Context) (e : Enforcer) (s : String)
    (hskip : ∀ sk, config.Skipper = some sk → sk c = false)
    (hgetter : config.UserGetter = some getter) (hs : getter c = ((s, none), c1))
    (he : config.Enforcer = some e)
    (hallow : e.Enforce GoContext.Background s c1.Request.Path c1.Request.Method
      = (true, none)) :
    MiddlewareWithConfig config next c =
        Exec.ok (next c1)
          [Call.Skipper c, Call.UserGetter c,
            Call.Enforce GoContext.Background s c1.Request.Path c1.Request.Method, Call.Next c1]
      ∧ (MiddlewareWithConfig config next c).calls.countP Call.isNext = 1
      ∧ (MiddlewareWithConfig config next c).calls.count (Call.Next c1) = 1 := by
  have hrun : MiddlewareWithConfig config next c =
      Exec.ok (next c1)
        [Call.Skipper c, Call.UserGetter c,
          Call.Enforce GoContext.Background s c1.Request.Path c1.Request.Method,
          Call.Next c1] := by
    rw [handler_not_skipped config next c hskip]
    simp [Config.CheckPermission, Config.GetUserName, hgetter, hs, he, hallow]
  refine ⟨hrun, ?_, ?_⟩ <;> rw [hrun] <;> simp [Exec.calls, Call.isNext]

/-- C5: when the skipper returns true on the request, the handler calls
neither the UserGetter nor Enforce, calls next once on the context it was
given and returns the result of next as it is; the UserGetter and Enforcer
fields are arbitrary (nil included) and so are their answers. -/
theorem skipped_passes_through (config : Config) (next : HandlerFunc) (c : Context)
    (sk : Context → Bool) (hsk : config.Skipper = some sk) (hskip : sk c = true) :
    MiddlewareWithConfig config next c = Exec.ok (next c) [Call.Skipper c, Call.Next c]
      ∧ (MiddlewareWithConfig config next c).calls.countP Call.isUserGetter = 0
      ∧ (MiddlewareWithConfig config next c).calls.countP Call.isEnforce = 0
      ∧ (MiddlewareWithConfig config next c).calls.countP Call.isNext = 1
      ∧ (MiddlewareWithConfig config next c).calls.count (Call.Next c) = 1 := by
  have hrun : MiddlewareWithConfig config next c =
      Exec.ok (next c) [Call.Skipper c, Call.Next c] := by
    rw [handler_of_skipper config next c sk hsk]
    simp [hskip]
  refine ⟨hrun, ?_, ?_, ?_, ?_⟩ <;> rw [hrun] <;>
    simp [Exec.calls, Call.isNext, Call.isUserGetter, Call.isEnforce]

/-! ## Witnesses of the gate theorems -/

/-- Scenario of C1: bob, POST /dataset2/resource2, denied by the policy. -/
theorem denied_is_forbidden_witness :
    (policyEnforcer examplePolicy).Enforce GoContext.Background "bob" "/dataset2/resource2" "POST"
        = (false, none)
      ∧ MiddlewareWithConfig exampleConfig (StringHandler 200)
          (testContext "bob" "/dataset2/resource2" "POST") =
        Exec.ok { err := some ErrForbidden, Status := 0 }
          [Call.Skipper (testContext "bob" "/dataset2/resource2" "POST"),
            Call.UserGetter (testContext "bob" "/dataset2/resource2" "POST"),
            Call.Enforce GoContext.Background "bob" "/dataset2/resource2" "POST"] :=
  ⟨by decide,
    (denied_is_forbidden exampleConfig (StringHandler 200)
      (testContext "bob" "/dataset2/resource2" "POST")
      (testContext "bob" "/dataset2/resource2" "POST")
      (fun c => ((c.Request.BasicAuth.1, none), c)) (policyEnforcer examplePolicy) "bob"
      (fun sk h => by
        have h2 : some DefaultSkipper = some sk := h
        cases h2
        rfl)
      rfl rfl rfl (by decide)).1⟩

/-- Scenario of C2: the strategy of TestUserGetterError, over a decision client
that would allow the request. -/
theorem identity_failure_is_forbidden_witness :
    contextAwareEnforcer.Enforce GoContext.Background "" "/dataset1/item" "GET" = (true, none)
      ∧ MiddlewareWithConfig failingIdentityConfig (StringHandler 200)
          (testContext "cathy" "/dataset1/item" "GET") =
        Exec.ok { err := some (GoError.HTTPError 403 "Forbidden"), Status := 0 }
          [Call.Skipper (testContext "cathy" "/dataset1/item" "GET"),
            Call.UserGetter (testContext "cathy" "/dataset1/item" "GET")] :=
  ⟨by decide,
    (identity_failure_is_forbidden failingIdentityConfig (StringHandler 200)
      (testContext "cathy" "/dataset1/item" "GET") (testContext "cathy" "/dataset1/item" "GET")
      failingUserGetter "" (GoError.errorString "no idea who you are")
      (fun sk h => by
        have h2 : some DefaultSkipper = some sk := h
        cases h2
        rfl)
      rfl rfl).1⟩

/-- Scenario of C3: a decision client that fails while reporting true. -/
theorem enforce_failure_is_internal_error_witness :
    MiddlewareWithConfig { DefaultConfig with Enforcer := some (failingEnforcer true "unreachable") }
        (StringHandler 200) (testContext "cathy" "/dataset1/item" "GET") =
      Exec.ok { err := some (GoError.HTTPError 500 "unreachable"), Status := 0 }
        [Call.Skipper (testContext "cathy" "/dataset1/item" "GET"),
          Call.UserGetter (testContext "cathy" "/dataset1/item" "GET"),
          Call.Enforce GoContext.Background "cathy" "/dataset1/item" "GET"] :=
  (enforce_failure_is_internal_error
    { DefaultConfig with Enforcer := some (failingEnforcer true "unreachable") }
    (StringHandler 200) (testContext "cathy" "/dataset1/item" "GET")
    (testContext "cathy" "/dataset1/item" "GET")
    (fun c => ((c.Request.BasicAuth.1, none), c)) (failingEnforcer true "unreachable") "cathy"
    true (GoError.errorString "unreachable")
    (fun sk h => by
      have h2 : some DefaultSkipper = some sk := h
      cases h2
      rfl)
    rfl rfl rfl rfl).1

/-- Scenario of C4: alice, GET /dataset1/resource1, allowed by the policy. -/
theorem allowed_calls_next_once_witness :
    (policyEnforcer examplePolicy).Enforce GoContext.Background "alice" "/dataset1/resource1" "GET"
        = (true, none)
      ∧ MiddlewareWithConfig exampleConfig (StringHandler 200)
          (testContext "alice" "/dataset1/resource1" "GET") =
        Exec.ok { err := none, Status := 200 }
          [Call.Skipper (testContext "alice" "/dataset1/resource1" "GET"),
            Call.UserGetter (testContext "alice" "/dataset1/resource1" "GET"),
            Call.Enforce GoContext.Background "alice" "/dataset1/resource1" "GET",
            Call.Next (testContext "alice" "/dataset1/resource1" "GET")] :=
  ⟨by decide,
    (allowed_calls_next_once exampleConfig (StringHandler 200)
      (testContext "alice" "/dataset1/resource1" "GET")
      (testContext "alice" "/dataset1/resource1" "GET")
      (fun c => ((c.Request.BasicAuth.1, none), c)) (policyEnforcer examplePolicy) "alice"
      (fun sk h => by
        have h2 : some DefaultSkipper = some sk := h
        cases h2
        rfl)
      rfl rfl rfl (by decide)).1⟩

/-- Scenario of C5: a skipped path, under a config whose UserGetter and
Enforcer are nil. -/
theorem skipped_passes_through_witness :
    healthSkipper (anonymousContext "/health" "GET") = true
      ∧ MiddlewareWithConfig skippingConfig (StringHandler 200) (anonymousContext "/health" "GET") =
        Exec.ok { err := none, Status := 200 }
          [Call.Skipper (anonymousContext "/health" "GET"),
            Call.Next (anonymousContext "/health" "GET")] :=
  ⟨by decide,
    (skipped_passes_through skippingConfig (StringHandler 200) (anonymousContext "/health" "GET")
      healthSkipper rfl (by decide)).1⟩

/-! ## The identity strategy -/

/-- With a UserGetter that succeeds and a non-nil Enforcer, `CheckPermission`
makes one call of Enforce, on the background context, with the subject and
with the path and the method the request has once the UserGetter has run, and
returns its answer. -/
theorem check_permission_of_subject (a : Config) (c c1 : Context)
    (getter : Context → (String × Option GoError) × Context) (e : Enforcer) (s : String)
    (hgetter : a.UserGetter = some getter) (hs : getter c = ((s, none), c1))
    (he : a.Enforcer = some e) :
    a.CheckPermission c =
      Exec.ok (e.Enforce GoContext.Background s c1.Request.Path c1.Request.Method, c1)
        [Call.UserGetter c,
          Call.Enforce GoContext.Background s c1.Request.Path c1.Request.Method] := by
  simp [Config.CheckPermission, Config.GetUserName, hgetter, hs, he]

/-- C6, refuted: on the request of bob, POST /dataset2/resource2, the default
strategy and a strategy that sets the URL path of the request before it
returns both give the subject bob and a nil error, yet the outcomes differ.
With the default strategy Enforce is asked about /dataset2/resource2 and the
gate answers 403; with the other one Enforce is asked about
/dataset2/resource1, not the path the request came with, and the gate calls
next (200). -/
theorem same_subject_counterexample :
    (testContext "bob" "/dataset2/resource2" "POST").Request.Path = "/dataset2/resource2"
      ∧ exampleConfig.GetUserName (testContext "bob" "/dataset2/resource2" "POST") =
        Exec.ok (("bob", none), testContext "bob" "/dataset2/resource2" "POST")
          [Call.UserGetter (testContext "bob" "/dataset2/resource2" "POST")]
      ∧ rewritingConfig.GetUserName (testContext "bob" "/dataset2/resource2" "POST") =
        Exec.ok (("bob", none), testContext "bob" "/dataset2/resource1" "POST")
          [Call.UserGetter (testContext "bob" "/dataset2/resource2" "POST")]
      ∧ rewritingConfig = { exampleConfig with UserGetter := some rewritingUserGetter }
      ∧ MiddlewareWithConfig exampleConfig (StringHandler 200)
          (testContext "bob" "/dataset2/resource2" "POST") =
        Exec.ok { err := some (GoError.HTTPError 403 "Forbidden"), Status := 0 }
          [Call.Skipper (testContext "bob" "/dataset2/resource2" "POST"),
            Call.UserGetter (testContext "bob" "/dataset2/resource2" "POST"),
            Call.Enforce GoContext.Background "bob" "/dataset2/resource2" "POST"]
      ∧ MiddlewareWithConfig rewritingConfig (StringHandler 200)
          (testContext "bob" "/dataset2/resource2" "POST") =
        Exec.ok { err := none, Status := 200 }
          [Call.Skipper (testContext "bob" "/dataset2/resource2" "POST"),
            Call.UserGetter (testContext "bob" "/dataset2/resource2" "POST"),
            Call.Enforce GoContext.Background "bob" "/dataset2/resource1" "POST",
            Call.Next (testContext "bob" "/dataset2/resource1" "POST")] := by
  refine ⟨by decide, by decide, by decide, rfl, by decide, by decide⟩

/-- C6, amended: when the configured UserGetter returns (s, nil),
CheckPermission calls Enforce once with s, the URL path and the method, in
that order, the path and the method being those the request has once the
UserGetter has run (c1 is the context as the UserGetter leaves it: the request
as it came when the strategy writes nothing), and returns the answer of
Enforce as it is.  Hence a second strategy that returns the same subject on
the request and leaves the context in the same state gives the same run of
the whole handler, and the credentials on the request play no part: with other
credentials (or none) on the request, the same subject from the strategy and
the same path and method after it, CheckPermission makes the same call of
Enforce and returns the same answer. -/
theorem identity_strategy_sets_subject (a : Config) (c c1 : Context)
    (getter : Context → (String × Option GoError) × Context) (e : Enforcer) (s : String)
    (hgetter : a.UserGetter = some getter) (hs : getter c = ((s, none), c1))
    (he : a.Enforcer = some e) :
    a.CheckPermission c =
        Exec.ok (e.Enforce GoContext.Background s c1.Request.Path c1.Request.Method, c1)
          [Call.UserGetter c,
            Call.Enforce GoContext.Background s c1.Request.Path c1.Request.Method]
      ∧ (∀ (getter2 : Context → (String × Option GoError) × Context) (next : HandlerFunc),
          getter2 c = ((s, none), c1) →
          MiddlewareWithConfig { a with UserGetter := some getter2 } next c =
            MiddlewareWithConfig a next c)
      ∧ (∀ (credentials : Option (String × String)) (c2 : Context),
          getter (c.withCredentials credentials) = ((s, none), c2) →
          c2.Request.Path = c1.Request.Path → c2.Request.Method = c1.Request.Method →
          (a.CheckPermission (c.withCredentials credentials)).value.map Prod.fst =
              (a.CheckPermission c).value.map Prod.fst
            ∧ (a.CheckPermission (c.withCredentials credentials)).calls.filter Call.isEnforce =
              [Call.Enforce GoContext.Background s c1.Request.Path c1.Request.Method]) := by
  refine ⟨check_permission_of_subject a c c1 getter e s hgetter hs he, ?_, ?_⟩
  · intro getter2 next hs2
    cases hsk : a.Skipper <;>
      simp [MiddlewareWithConfig, Config.CheckPermission, Config.GetUserName, hgetter, hs, hs2,
        he, hsk, DefaultConfig]
  · intro credentials c2 hs2 hpath hmethod
    have h1 := check_permission_of_subject a c c1 getter e s hgetter hs he
    have h2 := check_permission_of_subject a (c.withCredentials credentials) c2 getter e s
      hgetter hs2 he
    rw [h1, h2, hpath, hmethod]
    simp [Exec.value, Exec.calls, Call.isEnforce]

/-- Scenarios of C6 as amended: the strategy of TestCustomUserGetter on a
request that carries the credentials of cathy, and the strategy that sets the
path on the request of bob. -/
theorem identity_strategy_sets_subject_witness :
    (testContext "cathy" "/dataset1/item" "GET").Request.BasicAuth = ("cathy", "secret", true)
      ∧ customConfig.CheckPermission (testContext "cathy" "/dataset1/item" "GET") =
        Exec.ok ((false, none), testContext "cathy" "/dataset1/item" "GET")
          [Call.UserGetter (testContext "cathy" "/dataset1/item" "GET"),
            Call.Enforce GoContext.Background "not_cathy_at_all" "/dataset1/item" "GET"]
      ∧ rewritingConfig.CheckPermission (testContext "bob" "/dataset2/resource2" "POST") =
        Exec.ok ((true, none), testContext "bob" "/dataset2/resource1" "POST")
          [Call.UserGetter (testContext "bob" "/dataset2/resource2" "POST"),
            Call.Enforce GoContext.Background "bob" "/dataset2/resource1" "POST"] :=
  ⟨by decide,
    (identity_strategy_sets_subject customConfig (testContext "cathy" "/dataset1/item" "GET")
      (testContext "cathy" "/dataset1/item" "GET")
      customUserGetter (policyEnforcer examplePolicy) "not_cathy_at_all" rfl rfl rfl).1,
    (identity_strategy_sets_subject rewritingConfig
      (testContext "bob" "/dataset2/resource2" "POST")
      (testContext "bob" "/dataset2/resource1" "POST")
      rewritingUserGetter (policyEnforcer examplePolicy) "bob" rfl rfl rfl).1⟩

/-! ## The defaults of the config -/

/-- With a nil UserGetter, a request that is not skipped makes the handler
panic right after the skipper: no default strategy is put in its place. -/
theorem handler_nil_user_getter (config : Config) (next : HandlerFunc) (c : Context)
    (hskip : ∀ sk, config.Skipper = some sk → sk c = false)
    (hgetter : config.UserGetter = none) :
    MiddlewareWithConfig config next c = Exec.panic [Call.Skipper c] := by
  rw [handler_not_skipped config next c hskip]
  simp [Config.CheckPermission, Config.GetUserName, hgetter]

/-- C7: the code at the failing input.  Under a config that supplies the
Enforcer only, the nil Skipper is replaced by the default one (the skipper is
called and does not skip), but the nil UserGetter is not replaced: the handler
panics on the request of alice, where the same config with
DefaultConfig.UserGetter lets the request through to next. -/
theorem nil_user_getter_panics :
    bareConfig.UserGetter.isNone = true
      ∧ MiddlewareWithConfig bareConfig (StringHandler 200)
          (testContext "alice" "/dataset1/resource1" "GET") =
        Exec.panic [Call.Skipper (testContext "alice" "/dataset1/resource1" "GET")]
      ∧ MiddlewareWithConfig { bareConfig with UserGetter := DefaultConfig.UserGetter }
          (StringHandler 200) (testContext "alice" "/dataset1/resource1" "GET") =
        Exec.ok { err := none, Status := 200 }
          [Call.Skipper (testContext "alice" "/dataset1/resource1" "GET"),
            Call.UserGetter (testContext "alice" "/dataset1/resource1" "GET"),
            Call.Enforce GoContext.Background "alice" "/dataset1/resource1" "GET",
            Call.Next (testContext "alice" "/dataset1/resource1" "GET")] := by
  refine ⟨rfl, ?_, by decide⟩
  exact handler_nil_user_getter bareConfig (StringHandler 200) _
    (fun sk h => by simp [bareConfig] at h) rfl

/-! ## The default config -/

/-- The run of the handler of `Middleware` over a non-nil enforcer: the
subject is the username of `BasicAuth()`, and the answer of Enforce on it
decides among next, 403 and 500. -/
theorem middleware_run (e : Enforcer) (next : HandlerFunc) (c : Context) :
    Middleware (some e) next c =
      match e.Enforce GoContext.Background c.Request.BasicAuth.1 c.Request.Path
          c.Request.Method with
      | (true, none) =>
        Exec.ok (next c)
          [Call.Skipper c, Call.UserGetter c,
            Call.Enforce GoContext.Background c.Request.BasicAuth.1 c.Request.Path
              c.Request.Method,
            Call.Next c]
      | (false, none) =>
        Exec.ok { err := some (GoError.HTTPError 403 "Forbidden"), Status := c.Status }
          [Call.Skipper c, Call.UserGetter c,
            Call.Enforce GoContext.Background c.Request.BasicAuth.1 c.Request.Path
              c.Request.Method]
      | (_, some cause) =>
        Exec.ok { err := some (GoError.HTTPError 500 cause.Error), Status := c.Status }
          [Call.Skipper c, Call.UserGetter c,
            Call.Enforce GoContext.Background c.Request.BasicAuth.1 c.Request.Path
              c.Request.Method] := by
  have hF : ErrForbidden = GoError.HTTPError 403 "Forbidden" := by decide
  rcases h : e.Enforce GoContext.Background c.Request.BasicAuth.1 c.Request.Path
    c.Request.Method with ⟨pass, err⟩
  cases err with
  | some cause =>
    simp [Middleware, MiddlewareWithConfig, DefaultConfig, DefaultSkipper, Config.CheckPermission,
      Config.GetUserName, h, NewHTTPError, StatusInternalServerError]
  | none =>
    cases pass <;>
      simp [Middleware, MiddlewareWithConfig, DefaultConfig, DefaultSkipper,
        Config.CheckPermission, Config.GetUserName, h, hF]

/-- C8, refuted: a request without credentials on a path the policy grants to
the empty subject reaches next and ends with code 200, and one on another path
ends with 403, neither with 401; and the request of bob, whose credentials are
valid, is denied by the policy and does not reach next. -/
theorem middleware_unauthorized_counterexample :
    (anonymousContext "/public" "GET").Request.BasicAuth.2.2 = false
      ∧ Middleware (some (policyEnforcer examplePolicy)) (StringHandler 200)
          (anonymousContext "/public" "GET") =
        Exec.ok { err := none, Status := 200 }
          [Call.Skipper (anonymousContext "/public" "GET"),
            Call.UserGetter (anonymousContext "/public" "GET"),
            Call.Enforce GoContext.Background "" "/public" "GET",
            Call.Next (anonymousContext "/public" "GET")]
      ∧ (Middleware (some (policyEnforcer examplePolicy)) (StringHandler 200)
          (anonymousContext "/public" "GET")).value.bind observedCode ≠ some StatusUnauthorized
      ∧ (Middleware (some (policyEnforcer examplePolicy)) (StringHandler 200)
          (anonymousContext "/dataset1/resource1" "GET")).value.bind observedCode = some 403
      ∧ (testContext "bob" "/dataset2/resource2" "POST").Request.BasicAuth = ("bob", "secret", true)
      ∧ (Middleware (some (policyEnforcer examplePolicy)) (StringHandler 200)
          (testContext "bob" "/dataset2/resource2" "POST")).calls.countP Call.isNext = 0
      ∧ (Middleware (some (policyEnforcer examplePolicy)) (StringHandler 200)
          (testContext "bob" "/dataset2/resource2" "POST")).value.bind observedCode = some 403 := by
  decide

/-- C8, amended: for every request, with or without usable credentials, the
handler of Middleware(ce) over a non-nil ce submits the username of BasicAuth()
(the empty string when the credentials are missing or invalid), the path and
the method to Enforce and follows its answer: next on (true, nil), 403
Forbidden on (false, nil), 500 on an error.  It calls next exactly when the
answer is (true, nil), and when it does not call next the code of its outcome
is 403 or 500, not 401. -/
theorem middleware_follows_enforcer (e : Enforcer) (next : HandlerFunc) (c : Context) :
    Middleware (some e) next c =
        (match e.Enforce GoContext.Background c.Request.BasicAuth.1 c.Request.Path
            c.Request.Method with
        | (true, none) =>
          Exec.ok (next c)
            [Call.Skipper c, Call.UserGetter c,
              Call.Enforce GoContext.Background c.Request.BasicAuth.1 c.Request.Path
                c.Request.Method,
              Call.Next c]
        | (false, none) =>
          Exec.ok { err := some (GoError.HTTPError 403 "Forbidden"), Status := c.Status }
            [Call.Skipper c, Call.UserGetter c,
              Call.Enforce GoContext.Background c.Request.BasicAuth.1 c.Request.Path
                c.Request.Method]
        | (_, some cause) =>
          Exec.ok { err := some (GoError.HTTPError 500 cause.Error), Status := c.Status }
            [Call.Skipper c, Call.UserGetter c,
              Call.Enforce GoContext.Background c.Request.BasicAuth.1 c.Request.Path
                c.Request.Method])
      ∧ ((Middleware (some e) next c).calls.countP Call.isNext = 1 ↔
          e.Enforce GoContext.Background c.Request.BasicAuth.1 c.Request.Path c.Request.Method
            = (true, none))
      ∧ ((Middleware (some e) next c).calls.countP Call.isNext = 0 →
          (Middleware (some e) next c).value.bind observedCode = some 403
            ∨ (Middleware (some e) next c).value.bind observedCode = some 500) := by
  refine ⟨middleware_run e next c, ?_, ?_⟩
  · rw [middleware_run e next c]
    rcases h : e.Enforce GoContext.Background c.Request.BasicAuth.1 c.Request.Path
      c.Request.Method with ⟨pass, err⟩
    cases err <;> cases pass <;> simp [Exec.calls, Call.isNext]
  · rw [middleware_run e next c]
    rcases h : e.Enforce GoContext.Background c.Request.BasicAuth.1 c.Request.Path
      c.Request.Method with ⟨pass, err⟩
    cases err <;> cases pass <;> simp [Exec.calls, Exec.value, Call.isNext, observedCode]

/-- Scenario of C8 as amended: bob with valid credentials, denied by the
policy, does not reach next and gets 403. -/
theorem middleware_follows_enforcer_witness :
    (Middleware (some (policyEnforcer examplePolicy)) (StringHandler 200)
        (testContext "bob" "/dataset2/resource2" "POST")).calls.countP Call.isNext = 0
      ∧ ((Middleware (some (policyEnforcer examplePolicy)) (StringHandler 200)
          (testContext "bob" "/dataset2/resource2" "POST")).value.bind observedCode = some 403
        ∨ (Middleware (some (policyEnforcer examplePolicy)) (StringHandler 200)
          (testContext "bob" "/dataset2/resource2" "POST")).value.bind observedCode = some 500) :=
  ⟨by decide,
    (middleware_follows_enforcer (policyEnforcer examplePolicy) (StringHandler 200)
      (testContext "bob" "/dataset2/resource2" "POST")).2.2 (by decide)⟩

/-- C9: the default strategy returns the username of BasicAuth() and a nil
error on every request: the username of the credentials when they are well
formed, the empty string when BasicAuth() reports ok = false.  Under the
default config a request of the latter kind is therefore not rejected by the
gate itself: Enforce is called with the subject "", the path and the method,
and the outcome is next on (true, nil), 403 on (false, nil) and 500 on an
error of Enforce.  The default strategy writes nothing to the context. -/
theorem default_strategy_never_fails (c : Context) (e : Enforcer) (next : HandlerFunc) :
    DefaultConfig.GetUserName c =
        Exec.ok ((c.Request.BasicAuth.1, none), c) [Call.UserGetter c]
      ∧ (∀ username password, c.Request.credentials = some (username, password) →
          c.Request.BasicAuth.2.2 = true
            ∧ DefaultConfig.GetUserName c = Exec.ok ((username, none), c) [Call.UserGetter c])
      ∧ (c.Request.BasicAuth.2.2 = false →
          DefaultConfig.GetUserName c = Exec.ok (("", none), c) [Call.UserGetter c]
            ∧ Middleware (some e) next c =
              match e.Enforce GoContext.Background "" c.Request.Path c.Request.Method with
              | (true, none) =>
                Exec.ok (next c)
                  [Call.Skipper c, Call.UserGetter c,
                    Call.Enforce GoContext.Background "" c.Request.Path c.Request.Method,
                    Call.Next c]
              | (false, none) =>
                Exec.ok { err := some (GoError.HTTPError 403 "Forbidden"), Status := c.Status }
                  [Call.Skipper c, Call.UserGetter c,
                    Call.Enforce GoContext.Background "" c.Request.Path c.Request.Method]
              | (_, some cause) =>
                Exec.ok { err := some (GoError.HTTPError 500 cause.Error), Status := c.Status }
                  [Call.Skipper c, Call.UserGetter c,
                    Call.Enforce GoContext.Background "" c.Request.Path c.Request.Method]) := by
  have hname : DefaultConfig.GetUserName c =
      Exec.ok ((c.Request.BasicAuth.1, none), c) [Call.UserGetter c] := by
    simp [Config.GetUserName, DefaultConfig]
  refine ⟨hname, ?_, ?_⟩
  · intro username password hcred
    rw [hname]
    simp [Request.BasicAuth, hcred]
  · intro hok
    have hempty : c.Request.BasicAuth.1 = "" := by
      cases hcred : c.Request.credentials with
      | none => simp [Request.BasicAuth, hcred]
      | some up => simp [Request.BasicAuth, hcred] at hok
    have hrun := middleware_run e next c
    rw [hempty] at hrun
    rw [hname, hempty]
    exact ⟨rfl, hrun⟩

/-- Scenario of C9: without credentials, a path granted to the empty subject
is let through to next. -/
theorem default_strategy_never_fails_witness :
    (anonymousContext "/public" "GET").Request.BasicAuth.2.2 = false
      ∧ Middleware (some (policyEnforcer examplePolicy)) (StringHandler 200)
          (anonymousContext "/public" "GET") =
        Exec.ok { err := none, Status := 200 }
          [Call.Skipper (anonymousContext "/public" "GET"),
            Call.UserGetter (anonymousContext "/public" "GET"),
            Call.Enforce GoContext.Background "" "/public" "GET",
            Call.Next (anonymousContext "/public" "GET")] :=
  ⟨by decide,
    ((default_strategy_never_fails (anonymousContext "/public" "GET")
      (policyEnforcer examplePolicy) (StringHandler 200)).2.2 (by decide)).2⟩

/-! ## The context handed to the decision client -/

/-- A context that is, or is derived from, a done context is done: being
derived from the request context is what carries its cancellation. -/
theorem done_of_derivedFrom (child ancestor : GoContext)
    (hder : child.derivedFrom ancestor = true) (hdone : ancestor.Done = true) :
    child.Done = true := by
  induction child with
  | Background =>
    unfold GoContext.derivedFrom at hder
    simp at hder
    rw [hder]
    exact hdone
  | WithCancel p cancelled ih =>
    unfold GoContext.derivedFrom at hder
    simp only [Bool.or_eq_true, beq_iff_eq] at hder
    rcases hder with h | h
    · rw [h]
      exact hdone
    · simp [GoContext.Done, ih h]
  | WithTimeout p expired ih =>
    unfold GoContext.derivedFrom at hder
    simp only [Bool.or_eq_true, beq_iff_eq] at hder
    rcases hder with h | h
    · rw [h]
      exact hdone
    · simp [GoContext.Done, ih h]

/-- The background context is derived from no context but itself. -/
theorem background_derivedFrom (ctx : GoContext) :
    GoContext.Background.derivedFrom ctx = true ↔ ctx = GoContext.Background := by
  unfold GoContext.derivedFrom
  simp only [Bool.or_false, beq_iff_eq]
  exact eq_comm

/-- C10, refuted: the request of alice has a cancelled context and the
decision client honours the context it is handed, yet the one call of Enforce
is made on the background context, which is not done and not derived from the
request context, and the gate ends with the result of next (code 200), not
with an error outcome. -/
theorem enforce_context_counterexample :
    cancelledContext.Request.Context.Done = true
      ∧ contextAwareEnforcer.Enforce cancelledContext.Request.Context "alice"
          "/dataset1/resource1" "GET" = (false, some (GoError.errorString "context canceled"))
      ∧ Middleware (some contextAwareEnforcer) (StringHandler 200) cancelledContext =
        Exec.ok { err := none, Status := 200 }
          [Call.Skipper cancelledContext, Call.UserGetter cancelledContext,
            Call.Enforce GoContext.Background "alice" "/dataset1/resource1" "GET",
            Call.Next cancelledContext]
      ∧ GoContext.Background.derivedFrom cancelledContext.Request.Context = false
      ∧ GoContext.Background.Done = false := by
  decide

/-- C10, amended: for every request that is not skipped and whose identity
extraction succeeds, under a non-nil Enforcer, the handler calls Enforce once
and the context it hands over is context.Background(), whatever the context
of the request (as it came, or as the UserGetter left it): that context is
never done, and it is derived from the request context only when the request
context is the background context itself. -/
theorem enforce_gets_background_context (config : Config) (next : HandlerFunc)
    (c c1 : Context)
    (getter : Context → (String × Option GoError) × Context) (e : Enforcer) (s : String)
    (hskip : ∀ sk, config.Skipper = some sk → sk c = false)
    (hgetter : config.UserGetter = some getter) (hs : getter c = ((s, none), c1))
    (he : config.Enforcer = some e) :
    (MiddlewareWithConfig config next c).calls.filter Call.isEnforce =
        [Call.Enforce GoContext.Background s c1.Request.Path c1.Request.Method]
      ∧ GoContext.Background.Done = false
      ∧ (GoContext.Background.derivedFrom c.Request.Context = true ↔
          c.Request.Context = GoContext.Background)
      ∧ (GoContext.Background.derivedFrom c1.Request.Context = true ↔
          c1.Request.Context = GoContext.Background) := by
  refine ⟨?_, rfl, background_derivedFrom _, background_derivedFrom _⟩
  rw [handler_not_skipped config next c hskip,
    check_permission_of_subject config c c1 getter e s hgetter hs he]
  rcases h : e.Enforce GoContext.Background s c1.Request.Path c1.Request.Method with ⟨pass, err⟩
  cases err <;> cases pass <;> simp [Exec.calls, Call.isEnforce]

/-- Scenario of C10 as amended: the cancelled request of alice. -/
theorem enforce_gets_background_context_witness :
    cancelledContext.Request.Context = GoContext.WithCancel GoContext.Background true
      ∧ (MiddlewareWithConfig { DefaultConfig with Enforcer := some contextAwareEnforcer }
          (StringHandler 200) cancelledContext).calls.filter Call.isEnforce =
        [Call.Enforce GoContext.Background "alice" "/dataset1/resource1" "GET"] :=
  ⟨rfl,
    (enforce_gets_background_context { DefaultConfig with Enforcer := some contextAwareEnforcer }
      (StringHandler 200) cancelledContext cancelledContext
      (fun c => ((c.Request.BasicAuth.1, none), c))
      contextAwareEnforcer "alice"
      (fun sk h => by
        have h2 : some DefaultSkipper = some sk := h
        cases h2
        rfl)
      rfl rfl rfl).1⟩

/-! ## The checks of casbin_test.go, over the example collaborators -/

/-- The checks of TestAuth, TestPathWildcard (one allowed and one denied
request), TestEnforceError, TestCustomUserGetter and TestUserGetterError pass
on the embedding, with the example policy in place of the remote one. -/
theorem test_requests_pass :
    testRequest (Middleware (some (policyEnforcer examplePolicy)) (StringHandler StatusOK))
        "alice" "/dataset1/resource1" "GET" 200 = true
      ∧ testRequest (Middleware (some (policyEnforcer examplePolicy)) (StringHandler StatusOK))
        "bob" "/dataset2/resource1" "POST" 200 = true
      ∧ testRequest (Middleware (some (policyEnforcer examplePolicy)) (StringHandler StatusOK))
        "bob" "/dataset2/resource2" "POST" 403 = true
      ∧ testRequest (Middleware (some (failingEnforcer false "unreachable"))
        (StringHandler StatusOK)) "cathy" "/dataset1/item" "GET" 500 = true
      ∧ testRequest (MiddlewareWithConfig customConfig (StringHandler StatusOK))
        "cathy" "/dataset1/item" "GET" 403 = true
      ∧ testRequest (MiddlewareWithConfig failingIdentityConfig (StringHandler StatusOK))
        "cathy" "/dataset1/item" "GET" 403 = true := by
  decide

end CasbinMiddleware
